import Mathlib

/-!
Shallow embedding of the two UI controllers of this repository:

* the token-gated password-reset form controller
  (`src/app/(auth)/reset-password/[token]/page.tsx`, component `ResetPasswordPage`), and
* the upload-and-analyze dialog controller (component `ResumeJDUpload` in the same file).

Pure functions of the source become Lean functions; each stateful event handler
becomes a function from the component state (and, for handlers that await a
network response, the response outcome) to the resulting state together with a
flag recording whether a network request was issued and the navigation it
scheduled.  JavaScript string truthiness is modelled by comparison with the
empty string; a value that may be `undefined` or a falsy string is modelled as
`Option String` with `none` standing for the falsy cases.
-/

namespace ResumeAnalyser

/-- Substring test on character lists: does `s` start with `sub`?
Models the leading-match step of JavaScript `String.prototype.includes`. -/
def listStartsWith : List Char → List Char → Bool
  | [], _ => true
  | _ :: _, [] => false
  | a :: sub, b :: s => a == b && listStartsWith sub s

/-- Substring containment on character lists. -/
def listContainsSub (sub : List Char) : List Char → Bool
  | [] => listStartsWith sub []
  | b :: s => listStartsWith sub (b :: s) || listContainsSub sub s

/-- Model of JavaScript `s.includes(sub)`. -/
def strIncludes (s sub : String) : Bool :=
  listContainsSub sub.toList s.toList

/-- Model of JavaScript `s.trim()`: drop leading and trailing whitespace. -/
def strTrim (s : String) : String :=
  ⟨((s.data.dropWhile Char.isWhitespace).reverse.dropWhile Char.isWhitespace).reverse⟩

/-! ## Reset-password controller: state and validation -/

/-- The three views `ResetPasswordPage` can render: the loading placeholder
(`tokenValid === null`), the invalid-token error screen (`tokenValid === false`),
and the active form (`tokenValid === true`). -/
inductive ResetView where
  | loading
  | invalidToken
  | form
deriving DecidableEq, Repr

/-- The React state of `ResetPasswordPage`: the `passwords` record, the
`error` and `success` messages, the `isLoading` flag and the tri-state
`tokenValid` (`null`/`true`/`false` becomes `Option Bool`).  `error` is
`Option String` because the source can call `setError(undefined)`;
`none` stands for any falsy value (absent or empty message, not rendered). -/
structure ResetState where
  password : String
  confirmPassword : String
  error : Option String
  success : String
  isLoading : Bool
  tokenValid : Option Bool
deriving DecidableEq, Repr

/-- Initial state of the component, from the `useState` initialisers. -/
def initResetState : ResetState :=
  { password := "", confirmPassword := "", error := none, success := "",
    isLoading := false, tokenValid := none }

/-- The length-rule message of `validatePassword`. -/
def lengthMsg : String := "Password must be at least 8 characters long"

/-- The lowercase-rule message of `validatePassword`. -/
def lowercaseMsg : String := "Password must contain at least one lowercase letter"

/-- The uppercase-rule message of `validatePassword`. -/
def uppercaseMsg : String := "Password must contain at least one uppercase letter"

/-- The digit-rule message of `validatePassword`. -/
def numberMsg : String := "Password must contain at least one number"

/-- The regex test `(?=.*[a-z])`: some character lies in the ASCII range a-z. -/
def hasLowercase (p : String) : Bool :=
  p.toList.any fun c => 'a' ≤ c && c ≤ 'z'

/-- The regex test `(?=.*[A-Z])`: some character lies in the ASCII range A-Z. -/
def hasUppercase (p : String) : Bool :=
  p.toList.any fun c => 'A' ≤ c && c ≤ 'Z'

/-- The regex test `(?=.*\d)`: some character lies in the ASCII range 0-9. -/
def hasDigit (p : String) : Bool :=
  p.toList.any fun c => '0' ≤ c && c ≤ '9'

/-- The source's `validatePassword`: returns the message of the first violated
rule, in source order (length, lowercase, uppercase, digit), and `null`
(modelled `none`) when all rules pass. -/
def validatePassword (password : String) : Option String :=
  if password.length < 8 then some lengthMsg
  else if !hasLowercase password then some lowercaseMsg
  else if !hasUppercase password then some uppercaseMsg
  else if !hasDigit password then some numberMsg
  else none

/-! ## Reset-password controller: mount effect, change handler, submit handler -/

/-- The message set by the mount effect when the route token is absent. -/
def invalidLinkMsg : String := "Invalid reset link. Please request a new password reset."

/-- The generic message of the non-HTTP error branch of `handleResetPassword`. -/
def genericErrMsg : String := "An unexpected error occurred. Please try again later."

/-- The default success message of `handleResetPassword`. -/
def resetSuccessMsg : String := "Password has been reset successfully! Redirecting to login..."

/-- Result of running the mount `useEffect`: the new state, plus a flag
recording whether the effect issued a network request (the effect body
contains no request, so the flag is always set `false` by the definition,
mirroring the source). -/
structure MountResult where
  state : ResetState
  requested : Bool
deriving DecidableEq, Repr

/-- The mount `useEffect` of `ResetPasswordPage`: absent token sets the error
message and `tokenValid := false`; present token sets `tokenValid := true`.
No network request is made in either branch. -/
def mountEffect (tokenPresent : Bool) (st : ResetState) : MountResult :=
  if tokenPresent then
    { state := { st with tokenValid := some true }, requested := false }
  else
    { state := { st with error := some invalidLinkMsg, tokenValid := some false },
      requested := false }

/-- The two input fields handled by `handleChange`, keyed by their `name`. -/
inductive ResetField where
  | passwordField
  | confirmPasswordField
deriving DecidableEq, Repr

/-- The source's `handleChange`: merges the new value into `passwords` and
clears any displayed error or success message. -/
def handleChange (f : ResetField) (v : String) (st : ResetState) : ResetState :=
  { st with
    password := if f = ResetField.passwordField then v else st.password,
    confirmPassword := if f = ResetField.confirmPasswordField then v else st.confirmPassword,
    error := none,
    success := "" }

/-- Outcome of the `axios.post` awaited by `handleResetPassword`:
a resolved response carrying the body fields `success` and `message`;
a rejected promise that is an axios error with a response (HTTP error),
carrying the status and the optional `message` and `error` body fields;
or any other rejection (network failure, non-axios error). -/
inductive ResetOutcome where
  | ok (success : Bool) (message : Option String)
  | httpError (status : Nat) (message : Option String) (errorField : Option String)
  | networkError
deriving DecidableEq, Repr

/-- Result of `handleResetPassword`: the final state, whether a network
request was issued, and the navigation scheduled (path and delay in ms). -/
structure ResetResult where
  state : ResetState
  requested : Bool
  nav : Option (String × Nat)
deriving DecidableEq, Repr

/-- The source's `handleResetPassword`, as a function of the pre-state and of
the outcome the awaited request would have (ignored when no request is made).
Mirrors the source line by line: clear messages and set `isLoading`; the three
local guards each set an error and return without a request; otherwise one POST
is issued and handled, with `isLoading` cleared in the `finally` block. -/
def handleResetPassword (st : ResetState) (outcome : ResetOutcome) : ResetResult :=
  let st1 : ResetState := { st with error := none, success := "", isLoading := true }
  if st1.password = "" ∨ st1.confirmPassword = "" then
    { state := { st1 with error := some "Please fill in all fields", isLoading := false },
      requested := false, nav := none }
  else if st1.password ≠ st1.confirmPassword then
    { state := { st1 with error := some "Passwords do not match", isLoading := false },
      requested := false, nav := none }
  else
    match validatePassword st1.password with
    | some msg =>
      { state := { st1 with error := some msg, isLoading := false },
        requested := false, nav := none }
    | none =>
      match outcome with
      | ResetOutcome.ok s m =>
        if s then
          let st2 := { st1 with
            success := m.getD resetSuccessMsg,
            password := "",
            confirmPassword := "",
            isLoading := false }
          { state := st2, requested := true, nav := some ("/signin", 3000) }
        else
          { state := { st1 with isLoading := false }, requested := true, nav := none }
      | ResetOutcome.httpError status m e =>
        let st2 := { st1 with
          error := (match m with | some s => some s | none => e),
          tokenValid := (if status = 400 ∨ status = 404 then some false else st1.tokenValid),
          isLoading := false }
        { state := st2, requested := true, nav := none }
      | ResetOutcome.networkError =>
        { state := { st1 with error := some genericErrMsg, isLoading := false },
          requested := true, nav := none }

/-! ## Reset-password controller: rendering and page-level steps -/

/-- The view selected by the component body from `tokenValid`. -/
def render (st : ResetState) : ResetView :=
  match st.tokenValid with
  | none => ResetView.loading
  | some false => ResetView.invalidToken
  | some true => ResetView.form

/-- The `disabled` predicate of the submit button:
`isLoading || !passwords.password || !passwords.confirmPassword`. -/
def submitDisabled (st : ResetState) : Bool :=
  st.isLoading || st.password == "" || st.confirmPassword == ""

/-- Events the mounted page can receive after the mount effect: an input
change or a form submission (with the outcome its request would have). -/
inductive ResetEvent where
  | change (f : ResetField) (v : String)
  | submit (outcome : ResetOutcome)
deriving DecidableEq, Repr

/-- Result of a page-level step: the new state and whether the step issued
a network request. -/
structure StepResult where
  state : ResetState
  requested : Bool
deriving DecidableEq, Repr

/-- One page-level step.  Input changes reach `handleChange` only while the
form view is rendered and the inputs are not disabled (`disabled={isLoading}`);
a form submission reaches `handleResetPassword` only while the form view is
rendered and the submit button is enabled.  In every other situation the DOM
offers no such interaction and the state is unchanged. -/
def resetPageStep (st : ResetState) (e : ResetEvent) : StepResult :=
  match e with
  | ResetEvent.change f v =>
    if render st = ResetView.form ∧ st.isLoading = false then
      { state := handleChange f v st, requested := false }
    else
      { state := st, requested := false }
  | ResetEvent.submit o =>
    if render st = ResetView.form ∧ submitDisabled st = false then
      let r := handleResetPassword st o
      { state := r.state, requested := r.requested }
    else
      { state := st, requested := false }

/-- The state of the page after mounting with (or without) a route token and
then processing a list of events. -/
def runResetPage (tokenPresent : Bool) (events : List ResetEvent) : ResetState :=
  events.foldl (fun s e => (resetPageStep s e).state) (mountEffect tokenPresent initResetState).state

/-- The page state after processing a list of events from a given state. -/
def resetSteps (st : ResetState) (events : List ResetEvent) : ResetState :=
  events.foldl (fun s e => (resetPageStep s e).state) st

/-! ## Upload-and-analyze controller (`ResumeJDUpload`) -/

/-- The `ResumeFile` record stored by the upload handlers: the file handle's
MIME type (`file.type`), together with the copied `name` and `size`. -/
structure ResumeFile where
  mime : String
  name : String
  size : Nat
deriving DecidableEq, Repr

/-- The `JobDetails` record of the source. -/
structure JobDetails where
  title : String
  company : String
  description : String
deriving DecidableEq, Repr

/-- The state of `ResumeJDUpload` together with the two context slots it
writes through `useDashboard`: `openDialog` and `resumeAnalysisData` (the
opaque analysis payload, modelled as a string). -/
structure UploadState where
  resumeFile : Option ResumeFile
  jobDetails : JobDetails
  isScanning : Bool
  openDialog : Bool
  resumeAnalysisData : Option String
deriving DecidableEq, Repr

/-- The acceptance test shared by both file handlers:
`file.type === 'application/pdf' || file.type.includes('document')`. -/
def acceptsResume (mime : String) : Bool :=
  mime == "application/pdf" || strIncludes mime "document"

/-- The source's `handleFileUpload`: `event.target.files?.[0]` may be absent;
a present file is stored iff the acceptance test passes, otherwise the state
is unchanged and no error is surfaced. -/
def handleFileUpload (st : UploadState) (file : Option ResumeFile) : UploadState :=
  match file with
  | some f => if acceptsResume f.mime then { st with resumeFile := some f } else st
  | none => st

/-- The source's `handleDrop`: identical acceptance logic on
`event.dataTransfer.files?.[0]`. -/
def handleDrop (st : UploadState) (file : Option ResumeFile) : UploadState :=
  match file with
  | some f => if acceptsResume f.mime then { st with resumeFile := some f } else st
  | none => st

/-- The three keys of `handleJobDetailsChange`. -/
inductive JobField where
  | title
  | company
  | description
deriving DecidableEq, Repr

/-- The source's `handleJobDetailsChange`: merges the value into `jobDetails`. -/
def handleJobDetailsChange (st : UploadState) (f : JobField) (v : String) : UploadState :=
  { st with jobDetails :=
    { title := if f = JobField.title then v else st.jobDetails.title,
      company := if f = JobField.company then v else st.jobDetails.company,
      description := if f = JobField.description then v else st.jobDetails.description } }

/-- Outcome of the analysis POST: a resolved response carrying the opaque
payload, or any rejection (the source only logs it). -/
inductive ScanOutcome where
  | ok (payload : String)
  | requestFailed
deriving DecidableEq, Repr

/-- Result of `handleStartScanning`: final state, whether a request was
issued, and the route pushed (the source navigates immediately, no delay). -/
structure ScanResult where
  state : UploadState
  requested : Bool
  nav : Option String
deriving DecidableEq, Repr

/-- The source's `handleStartScanning`, as a function of the pre-state and the
outcome its request would have.  The internal guard is the JavaScript
truthiness test `resumeFile && jobDetails.title && jobDetails.company &&
jobDetails.description` (untrimmed, and not consulting `isScanning`).  When it
passes: set `isScanning`, clear the shared result slot, issue the POST; on
success close the dialog, store the payload and navigate; on failure only log;
in all paths clear `isScanning` in the `finally` block. -/
def handleStartScanning (st : UploadState) (o : ScanOutcome) : ScanResult :=
  if st.resumeFile.isSome = true ∧ st.jobDetails.title ≠ "" ∧
      st.jobDetails.company ≠ "" ∧ st.jobDetails.description ≠ "" then
    let st1 := { st with isScanning := true, resumeAnalysisData := none }
    match o with
    | ScanOutcome.ok payload =>
      let st2 := { st1 with
        openDialog := false,
        resumeAnalysisData := some payload,
        isScanning := false }
      { state := st2, requested := true, nav := some "/dashboard/jd-matcher/resume-analysis" }
    | ScanOutcome.requestFailed =>
      { state := { st1 with isScanning := false }, requested := true, nav := none }
  else
    { state := st, requested := false, nav := none }

/-- The source's `isFormValid`:
`Boolean(resumeFile && title.trim() && company.trim() && description.trim())`. -/
def isFormValid (st : UploadState) : Bool :=
  st.resumeFile.isSome && !(strTrim st.jobDetails.title == "") &&
    !(strTrim st.jobDetails.company == "") && !(strTrim st.jobDetails.description == "")

/-- The `disabled` predicate of the Start Analysis button:
`!isFormValid || isScanning`. -/
def startDisabled (st : UploadState) : Bool :=
  !isFormValid st || st.isScanning

/-- The submit-enabled predicate of the dialog: the button is clickable. -/
def startEnabled (st : UploadState) : Bool :=
  !startDisabled st

/-- A click on the Start Analysis button at the dialog level: the click
reaches `handleStartScanning` only while the button is enabled. -/
def uploadClick (st : UploadState) (o : ScanOutcome) : ScanResult :=
  if startDisabled st then
    { state := st, requested := false, nav := none }
  else
    handleStartScanning st o

/-! ## Helper lemmas -/

/-- The Bool lowercase test holds exactly when some character is in a-z. -/
theorem hasLowercase_iff (p : String) :
    hasLowercase p = true ↔ ∃ c ∈ p.toList, 'a' ≤ c ∧ c ≤ 'z' := by
  simp [hasLowercase, List.any_eq_true, Bool.and_eq_true, decide_eq_true_eq]

/-- The Bool uppercase test holds exactly when some character is in A-Z. -/
theorem hasUppercase_iff (p : String) :
    hasUppercase p = true ↔ ∃ c ∈ p.toList, 'A' ≤ c ∧ c ≤ 'Z' := by
  simp [hasUppercase, List.any_eq_true, Bool.and_eq_true, decide_eq_true_eq]

/-- The Bool digit test holds exactly when some character is in 0-9. -/
theorem hasDigit_iff (p : String) :
    hasDigit p = true ↔ ∃ c ∈ p.toList, '0' ≤ c ∧ c ≤ '9' := by
  simp [hasDigit, List.any_eq_true, Bool.and_eq_true, decide_eq_true_eq]

/-- Branch lemma: a short password gets the length message. -/
theorem validatePassword_len (p : String) (h : p.length < 8) :
    validatePassword p = some lengthMsg := by
  unfold validatePassword
  rw [if_pos h]

/-- Branch lemma: a long-enough password without a lowercase letter gets the
lowercase message. -/
theorem validatePassword_lower (p : String) (h : ¬ p.length < 8)
    (h2 : hasLowercase p = false) : validatePassword p = some lowercaseMsg := by
  unfold validatePassword
  rw [if_neg h, if_pos (by simp [h2])]

/-- Branch lemma: length and lowercase pass, uppercase fails. -/
theorem validatePassword_upper (p : String) (h : ¬ p.length < 8)
    (h2 : hasLowercase p = true) (h3 : hasUppercase p = false) :
    validatePassword p = some uppercaseMsg := by
  unfold validatePassword
  rw [if_neg h, if_neg (by simp [h2]), if_pos (by simp [h3])]

/-- Branch lemma: only the digit rule fails. -/
theorem validatePassword_digit (p : String) (h : ¬ p.length < 8)
    (h2 : hasLowercase p = true) (h3 : hasUppercase p = true) (h4 : hasDigit p = false) :
    validatePassword p = some numberMsg := by
  unfold validatePassword
  rw [if_neg h, if_neg (by simp [h2]), if_neg (by simp [h3]), if_pos (by simp [h4])]

/-- Branch lemma: all four rules pass. -/
theorem validatePassword_none (p : String) (h : ¬ p.length < 8)
    (h2 : hasLowercase p = true) (h3 : hasUppercase p = true) (h4 : hasDigit p = true) :
    validatePassword p = none := by
  unfold validatePassword
  rw [if_neg h, if_neg (by simp [h2]), if_neg (by simp [h3]), if_neg (by simp [h4])]

/-- The starts-with test holds exactly when the list extends the pattern. -/
theorem listStartsWith_iff (sub s : List Char) :
    listStartsWith sub s = true ↔ ∃ rest, s = sub ++ rest := by
  induction sub generalizing s with
  | nil => simp [listStartsWith]
  | cons a as ih =>
    cases s with
    | nil => simp [listStartsWith]
    | cons b bs =>
      simp only [listStartsWith, Bool.and_eq_true, beq_iff_eq, ih, List.cons_append,
        List.cons.injEq]
      constructor
      · rintro ⟨rfl, rest, rfl⟩
        exact ⟨rest, rfl, rfl⟩
      · rintro ⟨rest, rfl, rfl⟩
        exact ⟨rfl, rest, rfl⟩

/-- The containment test holds exactly when the list decomposes around the
pattern. -/
theorem listContainsSub_iff (sub s : List Char) :
    listContainsSub sub s = true ↔ ∃ pre post, s = pre ++ sub ++ post := by
  induction s with
  | nil =>
    simp only [listContainsSub, listStartsWith_iff]
    constructor
    · rintro ⟨rest, h⟩
      exact ⟨[], rest, by simpa using h⟩
    · rintro ⟨pre, post, h⟩
      have h2 := h.symm
      simp only [List.append_eq_nil] at h2
      exact ⟨[], by simp [h2.1.2]⟩
  | cons b bs ih =>
    simp only [listContainsSub, Bool.or_eq_true, listStartsWith_iff, ih]
    constructor
    · rintro (⟨rest, h⟩ | ⟨pre, post, h⟩)
      · exact ⟨[], rest, by simpa using h⟩
      · exact ⟨b :: pre, post, by simp [h]⟩
    · rintro ⟨pre, post, h⟩
      cases pre with
      | nil => exact Or.inl ⟨post, by simpa using h⟩
      | cons x xs =>
        simp only [List.cons_append, List.cons.injEq] at h
        exact Or.inr ⟨xs, post, h.2⟩

/-- The model of `s.includes(sub)` holds exactly when `s` decomposes as
`pre ++ sub ++ post`. -/
theorem strIncludes_iff (s sub : String) :
    strIncludes s sub = true ↔ ∃ pre post, s = pre ++ sub ++ post := by
  unfold strIncludes
  rw [listContainsSub_iff]
  constructor
  · rintro ⟨pre, post, h⟩
    refine ⟨⟨pre⟩, ⟨post⟩, String.ext ?_⟩
    simpa [String.data_append, String.toList] using h
  · rintro ⟨pre, post, rfl⟩
    exact ⟨pre.data, post.data, by simp [String.data_append, String.toList]⟩

/-! ## Claims -/

/-- C1: `validatePassword` returns the first violated rule in the fixed order
length ≥ 8, contains a lowercase letter, contains an uppercase letter,
contains a digit, and returns no-error exactly when all four rules pass; in
particular, any password of length ≥ 8 lacking a lowercase letter gets the
lowercase violation even when uppercase and digit are also missing. -/
theorem C1_validatePassword_rule_order (p : String) :
    (validatePassword p = none ↔
      (8 ≤ p.length ∧ (∃ c ∈ p.toList, 'a' ≤ c ∧ c ≤ 'z') ∧
        (∃ c ∈ p.toList, 'A' ≤ c ∧ c ≤ 'Z') ∧ (∃ c ∈ p.toList, '0' ≤ c ∧ c ≤ '9'))) ∧
    (p.length < 8 → validatePassword p = some lengthMsg) ∧
    (8 ≤ p.length → (¬ ∃ c ∈ p.toList, 'a' ≤ c ∧ c ≤ 'z') →
      validatePassword p = some lowercaseMsg) ∧
    (8 ≤ p.length → (∃ c ∈ p.toList, 'a' ≤ c ∧ c ≤ 'z') →
      (¬ ∃ c ∈ p.toList, 'A' ≤ c ∧ c ≤ 'Z') → validatePassword p = some uppercaseMsg) ∧
    (8 ≤ p.length → (∃ c ∈ p.toList, 'a' ≤ c ∧ c ≤ 'z') →
      (∃ c ∈ p.toList, 'A' ≤ c ∧ c ≤ 'Z') → (¬ ∃ c ∈ p.toList, '0' ≤ c ∧ c ≤ '9') →
      validatePassword p = some numberMsg) := by
  have hl := hasLowercase_iff p
  have hu := hasUppercase_iff p
  have hd := hasDigit_iff p
  refine ⟨?_, fun h => validatePassword_len p h, ?_, ?_, ?_⟩
  · constructor
    · intro h
      by_cases h8 : p.length < 8
      · rw [validatePassword_len p h8] at h
        exact Option.noConfusion h
      · by_cases h2 : hasLowercase p = true
        · by_cases h3 : hasUppercase p = true
          · by_cases h4 : hasDigit p = true
            · exact ⟨by omega, hl.1 h2, hu.1 h3, hd.1 h4⟩
            · rw [validatePassword_digit p h8 h2 h3 (Bool.eq_false_iff.2 h4)] at h
              exact Option.noConfusion h
          · rw [validatePassword_upper p h8 h2 (Bool.eq_false_iff.2 h3)] at h
            exact Option.noConfusion h
        · rw [validatePassword_lower p h8 (Bool.eq_false_iff.2 h2)] at h
          exact Option.noConfusion h
    · rintro ⟨h8, hlc, huc, hdg⟩
      exact validatePassword_none p (by omega) (hl.2 hlc) (hu.2 huc) (hd.2 hdg)
  · intro h8 hnl
    exact validatePassword_lower p (by omega) (Bool.eq_false_iff.2 fun hh => hnl (hl.1 hh))
  · intro h8 hlc hnu
    exact validatePassword_upper p (by omega) (hl.2 hlc)
      (Bool.eq_false_iff.2 fun hh => hnu (hu.1 hh))
  · intro h8 hlc huc hnd
    exact validatePassword_digit p (by omega) (hl.2 hlc) (hu.2 huc)
      (Bool.eq_false_iff.2 fun hh => hnd (hd.1 hh))

/-- Witness for C1 at the spec's concrete scenario: "abcdefgh" (length ok,
no uppercase) yields the uppercase violation, and "Abcdefg1" passes. -/
theorem C1_validatePassword_rule_order_witness :
    validatePassword "abcdefgh" = some uppercaseMsg ∧ validatePassword "Abcdefg1" = none :=
  ⟨(C1_validatePassword_rule_order "abcdefgh").2.2.2.1 (by decide) (by decide) (by decide),
   (C1_validatePassword_rule_order "Abcdefg1").1.2 (by decide)⟩

/-- C8: a file offered to the upload controller is accepted (stored with its
handle, name and size) exactly when its MIME type is `application/pdf` or
contains the substring "document"; the predicate is identical for manual
selection and drag-and-drop, and a failing file is silently ignored, leaving
the state (in particular `selectedFile`) unchanged. -/
theorem C8_file_acceptance (st : UploadState) (f : ResumeFile) (m : String) :
    (acceptsResume m = true ↔
      m = "application/pdf" ∨ ∃ pre post, m = pre ++ "document" ++ post) ∧
    (acceptsResume f.mime = true →
      handleFileUpload st (some f) = { st with resumeFile := some f } ∧
      handleDrop st (some f) = { st with resumeFile := some f }) ∧
    (acceptsResume f.mime = false →
      handleFileUpload st (some f) = st ∧ handleDrop st (some f) = st) ∧
    handleFileUpload st none = st ∧ handleDrop st none = st := by
  refine ⟨?_, ?_, ?_, rfl, rfl⟩
  · unfold acceptsResume
    rw [Bool.or_eq_true, beq_iff_eq, strIncludes_iff]
  · intro h
    exact ⟨by simp [handleFileUpload, h], by simp [handleDrop, h]⟩
  · intro h
    exact ⟨by simp [handleFileUpload, h], by simp [handleDrop, h]⟩

/-- Witness for C8: the spec's `image/png` example is rejected and leaves
`selectedFile` unset on a fresh dialog state. -/
theorem C8_file_acceptance_witness :
    acceptsResume "image/png" = false ∧
    handleFileUpload ⟨none, ⟨"", "", ""⟩, false, true, none⟩
      (some ⟨"image/png", "r.png", 10⟩) = ⟨none, ⟨"", "", ""⟩, false, true, none⟩ :=
  ⟨by decide,
   ((C8_file_acceptance ⟨none, ⟨"", "", ""⟩, false, true, none⟩
      ⟨"image/png", "r.png", 10⟩ "image/png").2.2.1 (by decide)).1⟩

/-- C7: at mount on a fresh page, an absent route token sets TokenValidity to
Invalid with an error message, renders the invalid-token view and issues no
network call; a present token sets TokenValidity to Valid with no pre-flight
verification request. -/
theorem C7_mount_token_check :
    (mountEffect false initResetState).state.tokenValid = some false ∧
    (mountEffect false initResetState).state.error = some invalidLinkMsg ∧
    render (mountEffect false initResetState).state = ResetView.invalidToken ∧
    (mountEffect false initResetState).requested = false ∧
    (mountEffect true initResetState).state.tokenValid = some true ∧
    (mountEffect true initResetState).requested = false :=
  ⟨rfl, rfl, rfl, rfl, rfl, rfl⟩

/-- Branch lemma: an empty field short-circuits the submission. -/
theorem handleResetPassword_emptyFields (st : ResetState) (o : ResetOutcome)
    (h1 : st.password = "" ∨ st.confirmPassword = "") :
    handleResetPassword st o =
      ⟨{ st with error := some "Please fill in all fields", success := "", isLoading := false },
       false, none⟩ := by
  simp only [handleResetPassword]
  rw [if_pos h1]

/-- Branch lemma: differing fields short-circuit the submission. -/
theorem handleResetPassword_mismatch (st : ResetState) (o : ResetOutcome)
    (h1 : ¬(st.password = "" ∨ st.confirmPassword = ""))
    (h2 : st.password ≠ st.confirmPassword) :
    handleResetPassword st o =
      ⟨{ st with error := some "Passwords do not match", success := "", isLoading := false },
       false, none⟩ := by
  simp only [handleResetPassword]
  rw [if_neg h1, if_pos h2]

/-- Branch lemma: a rejected password short-circuits the submission. -/
theorem handleResetPassword_validateFail (st : ResetState) (o : ResetOutcome) (msg : String)
    (h1 : ¬(st.password = "" ∨ st.confirmPassword = ""))
    (h2 : ¬ st.password ≠ st.confirmPassword)
    (hv : validatePassword st.password = some msg) :
    handleResetPassword st o =
      ⟨{ st with error := some msg, success := "", isLoading := false }, false, none⟩ := by
  simp only [handleResetPassword]
  rw [if_neg h1, if_neg h2, hv]

/-- Branch lemma: a resolved response with a truthy `success` body. -/
theorem handleResetPassword_okTrue (st : ResetState) (m : Option String)
    (h1 : ¬(st.password = "" ∨ st.confirmPassword = ""))
    (h2 : ¬ st.password ≠ st.confirmPassword)
    (hv : validatePassword st.password = none) :
    handleResetPassword st (ResetOutcome.ok true m) =
      ⟨{ st with
         error := none,
         success := m.getD resetSuccessMsg,
         password := "",
         confirmPassword := "",
         isLoading := false }, true, some ("/signin", 3000)⟩ := by
  simp only [handleResetPassword]
  rw [if_neg h1, if_neg h2, hv]
  rfl

/-- Branch lemma: a resolved response with a falsy `success` body does
nothing beyond clearing messages and the loading flag. -/
theorem handleResetPassword_okFalse (st : ResetState) (m : Option String)
    (h1 : ¬(st.password = "" ∨ st.confirmPassword = ""))
    (h2 : ¬ st.password ≠ st.confirmPassword)
    (hv : validatePassword st.password = none) :
    handleResetPassword st (ResetOutcome.ok false m) =
      ⟨{ st with error := none, success := "", isLoading := false }, true, none⟩ := by
  simp only [handleResetPassword]
  rw [if_neg h1, if_neg h2, hv]
  rfl

/-- Branch lemma: an HTTP error response. -/
theorem handleResetPassword_httpError (st : ResetState) (status : Nat) (m e : Option String)
    (h1 : ¬(st.password = "" ∨ st.confirmPassword = ""))
    (h2 : ¬ st.password ≠ st.confirmPassword)
    (hv : validatePassword st.password = none) :
    handleResetPassword st (ResetOutcome.httpError status m e) =
      ⟨{ st with
         error := (match m with | some s => some s | none => e),
         success := "",
         tokenValid := (if status = 400 ∨ status = 404 then some false else st.tokenValid),
         isLoading := false }, true, none⟩ := by
  simp only [handleResetPassword]
  rw [if_neg h1, if_neg h2, hv]

/-- Branch lemma: a rejection that carries no HTTP response. -/
theorem handleResetPassword_networkError (st : ResetState)
    (h1 : ¬(st.password = "" ∨ st.confirmPassword = ""))
    (h2 : ¬ st.password ≠ st.confirmPassword)
    (hv : validatePassword st.password = none) :
    handleResetPassword st ResetOutcome.networkError =
      ⟨{ st with error := some genericErrMsg, success := "", isLoading := false },
       true, none⟩ := by
  simp only [handleResetPassword]
  rw [if_neg h1, if_neg h2, hv]

/-- C4: whenever a password field is empty, the two fields differ, or
validation rejects the password, a submission sets a user-facing error,
issues no network call, schedules no navigation, and leaves the password
fields and the token validity unchanged. -/
theorem C4_submit_local_guards (st : ResetState) (o : ResetOutcome)
    (h : st.password = "" ∨ st.confirmPassword = "" ∨ st.password ≠ st.confirmPassword ∨
      validatePassword st.password ≠ none) :
    (handleResetPassword st o).requested = false ∧
    (handleResetPassword st o).nav = none ∧
    (handleResetPassword st o).state.error ≠ none ∧
    (handleResetPassword st o).state.password = st.password ∧
    (handleResetPassword st o).state.confirmPassword = st.confirmPassword ∧
    (handleResetPassword st o).state.tokenValid = st.tokenValid := by
  by_cases h1 : st.password = "" ∨ st.confirmPassword = ""
  · rw [handleResetPassword_emptyFields st o h1]
    simp
  · by_cases h2 : st.password = st.confirmPassword
    · have h4 : validatePassword st.password ≠ none := by
        rcases h with ha | hb | hc | hd
        · exact absurd (Or.inl ha) h1
        · exact absurd (Or.inr hb) h1
        · exact absurd h2 hc
        · exact hd
      obtain ⟨msg, hmsg⟩ := Option.ne_none_iff_exists'.mp h4
      rw [handleResetPassword_validateFail st o msg h1 (not_not_intro h2) hmsg]
      simp
    · rw [handleResetPassword_mismatch st o h1 h2]
      simp

/-- Witness for C4: a short matching password triggers the guard and no
request is issued. -/
theorem C4_submit_local_guards_witness :
    (handleResetPassword ⟨"abc", "abc", none, "", false, some true⟩
      ResetOutcome.networkError).requested = false :=
  (C4_submit_local_guards ⟨"abc", "abc", none, "", false, some true⟩
    ResetOutcome.networkError (by decide)).1

/-- C9 counterexample: a POST that resolves (HTTP success) but whose body
carries a falsy `success` flag shows no success message, clears nothing and
schedules no navigation, refuting the claim for this successful POST. -/
theorem C9_success_counterexample :
    (handleResetPassword ⟨"Abcdefg1", "Abcdefg1", none, "", false, some true⟩
      (ResetOutcome.ok false none)).requested = true ∧
    (handleResetPassword ⟨"Abcdefg1", "Abcdefg1", none, "", false, some true⟩
      (ResetOutcome.ok false none)).state.success = "" ∧
    (handleResetPassword ⟨"Abcdefg1", "Abcdefg1", none, "", false, some true⟩
      (ResetOutcome.ok false none)).nav = none ∧
    (handleResetPassword ⟨"Abcdefg1", "Abcdefg1", none, "", false, some true⟩
      (ResetOutcome.ok false none)).state.password = "Abcdefg1" := by
  decide

/-- C9 amended: on every submission whose POST resolves with a body reporting
`success: true`, the controller shows a success message (the body's message,
else the default), clears both password fields, and schedules a navigation to
the sign-in view after a fixed 3000 ms delay. -/
theorem C9_success_path (st : ResetState) (m : Option String)
    (h1 : ¬(st.password = "" ∨ st.confirmPassword = ""))
    (h2 : st.password = st.confirmPassword)
    (hv : validatePassword st.password = none) :
    (handleResetPassword st (ResetOutcome.ok true m)).requested = true ∧
    (handleResetPassword st (ResetOutcome.ok true m)).state.success = m.getD resetSuccessMsg ∧
    (handleResetPassword st (ResetOutcome.ok true m)).state.password = "" ∧
    (handleResetPassword st (ResetOutcome.ok true m)).state.confirmPassword = "" ∧
    (handleResetPassword st (ResetOutcome.ok true m)).nav = some ("/signin", 3000) := by
  rw [handleResetPassword_okTrue st m h1 (not_not_intro h2) hv]
  exact ⟨rfl, rfl, rfl, rfl, rfl⟩

/-- Witness for C9 at a concrete valid submission. -/
theorem C9_success_path_witness :
    (handleResetPassword ⟨"Abcdefg1", "Abcdefg1", none, "", false, some true⟩
      (ResetOutcome.ok true none)).nav = some ("/signin", 3000) :=
  (C9_success_path ⟨"Abcdefg1", "Abcdefg1", none, "", false, some true⟩ none
    (by decide) rfl (by decide)).2.2.2.2

/-- C3 counterexample: an HTTP 500 error response whose body carries neither
`message` nor `error` leaves the displayed error empty (`setError(undefined)`)
instead of showing a generic user-facing message, refuting the claim. -/
theorem C3_error_counterexample :
    (handleResetPassword ⟨"Abcdefg1", "Abcdefg1", none, "", false, some true⟩
      (ResetOutcome.httpError 500 none none)).requested = true ∧
    (handleResetPassword ⟨"Abcdefg1", "Abcdefg1", none, "", false, some true⟩
      (ResetOutcome.httpError 500 none none)).state.error = none := by
  decide

/-- C3 amended: on an HTTP error response the displayed error is the body's
`message` field when present, else its `error` field, else nothing at all (no
generic message); the generic message is shown exactly for failures without an
HTTP response; and TokenValidity flips to Invalid exactly when the status is
400 or 404. -/
theorem C3_failure_handling (st : ResetState) (status : Nat) (m e : Option String)
    (h1 : ¬(st.password = "" ∨ st.confirmPassword = ""))
    (h2 : st.password = st.confirmPassword)
    (hv : validatePassword st.password = none)
    (h5 : st.tokenValid = some true) :
    (handleResetPassword st (ResetOutcome.httpError status m e)).state.error =
      (match m with | some s => some s | none => e) ∧
    ((handleResetPassword st (ResetOutcome.httpError status m e)).state.tokenValid = some false
      ↔ (status = 400 ∨ status = 404)) ∧
    (handleResetPassword st ResetOutcome.networkError).state.error = some genericErrMsg := by
  rw [handleResetPassword_httpError st status m e h1 (not_not_intro h2) hv,
    handleResetPassword_networkError st h1 (not_not_intro h2) hv]
  refine ⟨rfl, ?_, rfl⟩
  by_cases hs : status = 400 ∨ status = 404
  · simp [hs]
  · simp [hs, h5]

/-- Witness for C3: a 404 with only an `error` body field displays that field
and flips TokenValidity to Invalid. -/
theorem C3_failure_handling_witness :
    (handleResetPassword ⟨"Abcdefg1", "Abcdefg1", none, "", false, some true⟩
      (ResetOutcome.httpError 404 none (some "Token expired"))).state.tokenValid = some false :=
  ((C3_failure_handling ⟨"Abcdefg1", "Abcdefg1", none, "", false, some true⟩ 404 none
    (some "Token expired") (by decide) rfl (by decide) rfl).2.1).2 (Or.inr rfl)

/-- The reset submit handler clears `isLoading` on every path. -/
theorem handleResetPassword_isLoading (st : ResetState) (o : ResetOutcome) :
    (handleResetPassword st o).state.isLoading = false := by
  by_cases h1 : st.password = "" ∨ st.confirmPassword = ""
  · rw [handleResetPassword_emptyFields st o h1]
  · by_cases h2 : st.password = st.confirmPassword
    · rcases hv : validatePassword st.password with _ | msg
      · cases o with
        | ok s m =>
          cases s
          · rw [handleResetPassword_okFalse st m h1 (not_not_intro h2) hv]
          · rw [handleResetPassword_okTrue st m h1 (not_not_intro h2) hv]
        | httpError status m e =>
          rw [handleResetPassword_httpError st status m e h1 (not_not_intro h2) hv]
        | networkError =>
          rw [handleResetPassword_networkError st h1 (not_not_intro h2) hv]
      · rw [handleResetPassword_validateFail st o msg h1 (not_not_intro h2) hv]
    · rw [handleResetPassword_mismatch st o h1 h2]

/-- Branch lemma: the scan handler when its truthiness guard passes. -/
theorem handleStartScanning_guardPass (st : UploadState) (o : ScanOutcome)
    (h : st.resumeFile.isSome = true ∧ st.jobDetails.title ≠ "" ∧
      st.jobDetails.company ≠ "" ∧ st.jobDetails.description ≠ "") :
    handleStartScanning st o = (match o with
      | ScanOutcome.ok payload =>
          ⟨{ st with
             isScanning := false,
             openDialog := false,
             resumeAnalysisData := some payload }, true,
           some "/dashboard/jd-matcher/resume-analysis"⟩
      | ScanOutcome.requestFailed =>
          ⟨{ st with isScanning := false, resumeAnalysisData := none }, true, none⟩) := by
  simp only [handleStartScanning]
  rw [if_pos h]

/-- Branch lemma: the scan handler when its truthiness guard fails. -/
theorem handleStartScanning_guardFail (st : UploadState) (o : ScanOutcome)
    (h : ¬(st.resumeFile.isSome = true ∧ st.jobDetails.title ≠ "" ∧
      st.jobDetails.company ≠ "" ∧ st.jobDetails.description ≠ "")) :
    handleStartScanning st o = ⟨st, false, none⟩ := by
  simp only [handleStartScanning]
  rw [if_neg h]

/-- C2 counterexample: with the in-flight flag already set and every other
guard satisfied, both triggering actions still issue a request, so the actions
do not check an in-flight guard at their start. -/
theorem C2_in_flight_counterexample :
    (⟨"Abcdefg1", "Abcdefg1", none, "", true, some true⟩ : ResetState).isLoading = true ∧
    (handleResetPassword ⟨"Abcdefg1", "Abcdefg1", none, "", true, some true⟩
      (ResetOutcome.ok true none)).requested = true ∧
    (⟨some ⟨"application/pdf", "r.pdf", 1⟩, ⟨"t", "c", "d"⟩, true, true, none⟩
      : UploadState).isScanning = true ∧
    (handleStartScanning
      ⟨some ⟨"application/pdf", "r.pdf", 1⟩, ⟨"t", "c", "d"⟩, true, true, none⟩
      (ScanOutcome.ok "x")).requested = true := by
  decide

/-- C2 amended: the triggering actions do not themselves check the in-flight
flag (invoked while a request is pending they would issue another request);
instead the flag is cleared unconditionally whenever a request completes, on
success and failure alike, and at-most-one-in-flight holds at the page level
because each submit control is disabled while its flag is set, so no control
interaction issues a request while one is pending. -/
theorem C2_in_flight_guard (st : ResetState) (o : ResetOutcome)
    (su : UploadState) (so : ScanOutcome) :
    (handleResetPassword st o).state.isLoading = false ∧
    ((handleStartScanning su so).requested = true →
      (handleStartScanning su so).state.isScanning = false) ∧
    (st.isLoading = true → (resetPageStep st (ResetEvent.submit o)).requested = false) ∧
    (su.isScanning = true → (uploadClick su so).requested = false) := by
  refine ⟨handleResetPassword_isLoading st o, ?_, ?_, ?_⟩
  · intro hreq
    by_cases h : su.resumeFile.isSome = true ∧ su.jobDetails.title ≠ "" ∧
        su.jobDetails.company ≠ "" ∧ su.jobDetails.description ≠ ""
    · rw [handleStartScanning_guardPass su so h]
      cases so <;> rfl
    · rw [handleStartScanning_guardFail su so h] at hreq
      exact absurd hreq (by simp)
  · intro hl
    have hd : submitDisabled st = true := by simp [submitDisabled, hl]
    simp [resetPageStep, hd]
  · intro hs
    have hd : startDisabled su = true := by simp [startDisabled, hs]
    simp [uploadClick, hd]

/-- Witness for C2: with the flag set, neither page-level control issues a
request. -/
theorem C2_in_flight_guard_witness :
    (resetPageStep ⟨"Abcdefg1", "Abcdefg1", none, "", true, some true⟩
      (ResetEvent.submit (ResetOutcome.ok true none))).requested = false ∧
    (uploadClick ⟨none, ⟨"", "", ""⟩, true, true, none⟩ (ScanOutcome.ok "")).requested = false :=
  ⟨(C2_in_flight_guard ⟨"Abcdefg1", "Abcdefg1", none, "", true, some true⟩
      (ResetOutcome.ok true none) ⟨none, ⟨"", "", ""⟩, true, true, none⟩
      (ScanOutcome.ok "")).2.2.1 rfl,
   (C2_in_flight_guard ⟨"Abcdefg1", "Abcdefg1", none, "", true, some true⟩
      (ResetOutcome.ok true none) ⟨none, ⟨"", "", ""⟩, true, true, none⟩
      (ScanOutcome.ok "")).2.2.2 rfl⟩

/-- C6 counterexample: with a whitespace-only job title the submit-enabled
predicate is false, yet invoking startAnalysis issues a network request,
because its internal guard tests untrimmed truthiness rather than the
enablement predicate. -/
theorem C6_enablement_counterexample :
    isFormValid ⟨some ⟨"application/pdf", "r.pdf", 1⟩, ⟨" ", "Acme", "Build things"⟩,
      false, true, none⟩ = false ∧
    (handleStartScanning ⟨some ⟨"application/pdf", "r.pdf", 1⟩,
      ⟨" ", "Acme", "Build things"⟩, false, true, none⟩
      (ScanOutcome.ok "x")).requested = true := by
  decide

/-- C6 amended: the submit-enabled predicate (the button being clickable)
holds exactly when a file is selected, the three text fields are non-empty
after trimming, and no submission is pending; startAnalysis itself is guarded
only by the weaker untrimmed non-emptiness test that ignores the pending flag,
so a direct invocation with a whitespace-only field issues a request, while a
click on the disabled control issues none. -/
theorem C6_submit_enablement (st : UploadState) (o : ScanOutcome) :
    (startEnabled st = true ↔
      ((∃ f, st.resumeFile = some f) ∧ strTrim st.jobDetails.title ≠ "" ∧
        strTrim st.jobDetails.company ≠ "" ∧ strTrim st.jobDetails.description ≠ "" ∧
        st.isScanning = false)) ∧
    ((handleStartScanning st o).requested = true ↔
      ((∃ f, st.resumeFile = some f) ∧ st.jobDetails.title ≠ "" ∧
        st.jobDetails.company ≠ "" ∧ st.jobDetails.description ≠ "")) ∧
    (startEnabled st = false → (uploadClick st o).requested = false) := by
  refine ⟨?_, ?_, ?_⟩
  · simp [startEnabled, startDisabled, isFormValid, Option.isSome_iff_exists, and_assoc]
  · by_cases h : st.resumeFile.isSome = true ∧ st.jobDetails.title ≠ "" ∧
        st.jobDetails.company ≠ "" ∧ st.jobDetails.description ≠ ""
    · have hx : (∃ f, st.resumeFile = some f) ∧ st.jobDetails.title ≠ "" ∧
          st.jobDetails.company ≠ "" ∧ st.jobDetails.description ≠ "" :=
        ⟨Option.isSome_iff_exists.mp h.1, h.2.1, h.2.2.1, h.2.2.2⟩
      rw [handleStartScanning_guardPass st o h]
      cases o <;> simp [hx]
    · have hx : ¬((∃ f, st.resumeFile = some f) ∧ st.jobDetails.title ≠ "" ∧
          st.jobDetails.company ≠ "" ∧ st.jobDetails.description ≠ "") := fun hc =>
        h ⟨Option.isSome_iff_exists.mpr hc.1, hc.2.1, hc.2.2.1, hc.2.2.2⟩
      rw [handleStartScanning_guardFail st o h]
      simp [hx]
  · intro hdis
    have hd2 : startDisabled st = true := by simpa [startEnabled] using hdis
    simp [uploadClick, hd2]

/-- Witness for C6 at the spec's example: file set, title "Engineer",
company "Acme", description "Build things", not submitting, gives an enabled
control. -/
theorem C6_submit_enablement_witness :
    startEnabled ⟨some ⟨"application/pdf", "r.pdf", 1⟩,
      ⟨"Engineer", "Acme", "Build things"⟩, false, true, none⟩ = true :=
  (C6_submit_enablement ⟨some ⟨"application/pdf", "r.pdf", 1⟩,
      ⟨"Engineer", "Acme", "Build things"⟩, false, true, none⟩ (ScanOutcome.ok "")).1.mpr
    ⟨⟨⟨"application/pdf", "r.pdf", 1⟩, rfl⟩, by decide, by decide, by decide, rfl⟩

/-- C10: on a failed analysis request the dialog's local state is preserved —
the selected file and the three job fields are unchanged and the dialog stays
open, so the user can retry — while the shared result slot, cleared before the
request, stays cleared instead of being restored. -/
theorem C10_failure_preserves_local_state (st : UploadState)
    (h : (handleStartScanning st ScanOutcome.requestFailed).requested = true)
    (hd : st.openDialog = true) :
    (handleStartScanning st ScanOutcome.requestFailed).state.resumeFile = st.resumeFile ∧
    (handleStartScanning st ScanOutcome.requestFailed).state.jobDetails = st.jobDetails ∧
    (handleStartScanning st ScanOutcome.requestFailed).state.openDialog = true ∧
    (handleStartScanning st ScanOutcome.requestFailed).state.resumeAnalysisData = none ∧
    (handleStartScanning st ScanOutcome.requestFailed).state.isScanning = false ∧
    (handleStartScanning st ScanOutcome.requestFailed).nav = none := by
  by_cases hg : st.resumeFile.isSome = true ∧ st.jobDetails.title ≠ "" ∧
      st.jobDetails.company ≠ "" ∧ st.jobDetails.description ≠ ""
  · rw [handleStartScanning_guardPass st ScanOutcome.requestFailed hg]
    exact ⟨rfl, rfl, hd, rfl, rfl, rfl⟩
  · rw [handleStartScanning_guardFail st ScanOutcome.requestFailed hg] at h
    exact absurd h (by simp)

/-- Witness for C10: a failed request on a filled dialog with a previously
stored analysis payload leaves the slot cleared. -/
theorem C10_failure_preserves_local_state_witness :
    (handleStartScanning ⟨some ⟨"application/pdf", "r.pdf", 1⟩,
      ⟨"t", "c", "d"⟩, false, true, some "old"⟩
      ScanOutcome.requestFailed).state.resumeAnalysisData = none :=
  (C10_failure_preserves_local_state ⟨some ⟨"application/pdf", "r.pdf", 1⟩,
    ⟨"t", "c", "d"⟩, false, true, some "old"⟩ (by decide) rfl).2.2.2.1

/-- An input change never touches `tokenValid`. -/
theorem resetPageStep_change_tokenValid (st : ResetState) (f : ResetField) (v : String) :
    (resetPageStep st (ResetEvent.change f v)).state.tokenValid = st.tokenValid := by
  simp only [resetPageStep]
  split_ifs <;> rfl

/-- An invalidated page ignores every event. -/
theorem resetPageStep_invalid (st : ResetState) (e : ResetEvent)
    (h : st.tokenValid = some false) :
    resetPageStep st e = ⟨st, false⟩ := by
  have hr : render st = ResetView.invalidToken := by simp [render, h]
  cases e <;> simp [resetPageStep, hr]

/-- Unfolding step for `resetSteps`. -/
theorem resetSteps_cons (st : ResetState) (e : ResetEvent) (rest : List ResetEvent) :
    resetSteps st (e :: rest) = resetSteps (resetPageStep st e).state rest := rfl

/-- Invalid is preserved by any sequence of events. -/
theorem resetSteps_invalid (events : List ResetEvent) :
    ∀ st : ResetState, st.tokenValid = some false →
      (resetSteps st events).tokenValid = some false := by
  induction events with
  | nil =>
    intro st h
    simpa [resetSteps] using h
  | cons e rest ih =>
    intro st h
    rw [resetSteps_cons, resetPageStep_invalid st e h]
    exact ih st h

/-- The submit handler changes `tokenValid` only to Invalid, and only on an
HTTP error response with status 400 or 404. -/
theorem handleResetPassword_tokenValid (st : ResetState) (o : ResetOutcome) :
    (handleResetPassword st o).state.tokenValid = st.tokenValid ∨
    ((handleResetPassword st o).state.tokenValid = some false ∧
      ∃ status m e, o = ResetOutcome.httpError status m e ∧ (status = 400 ∨ status = 404)) := by
  by_cases h1 : st.password = "" ∨ st.confirmPassword = ""
  · rw [handleResetPassword_emptyFields st o h1]
    left
    rfl
  · by_cases h2 : st.password = st.confirmPassword
    · rcases hv : validatePassword st.password with _ | msg
      · cases o with
        | ok s m =>
          cases s
          · rw [handleResetPassword_okFalse st m h1 (not_not_intro h2) hv]
            left
            rfl
          · rw [handleResetPassword_okTrue st m h1 (not_not_intro h2) hv]
            left
            rfl
        | httpError status m e =>
          rw [handleResetPassword_httpError st status m e h1 (not_not_intro h2) hv]
          by_cases hs : status = 400 ∨ status = 404
          · right
            exact ⟨by simp [hs], status, m, e, rfl, hs⟩
          · left
            simp [hs]
        | networkError =>
          rw [handleResetPassword_networkError st h1 (not_not_intro h2) hv]
          left
          rfl
      · rw [handleResetPassword_validateFail st o msg h1 (not_not_intro h2) hv]
        left
        rfl
    · rw [handleResetPassword_mismatch st o h1 h2]
      left
      rfl

/-- C5: TokenValidity follows the claimed state machine: it starts Unknown;
mount makes it Valid exactly when the route token is present and Invalid
otherwise; from Valid, the only page event that makes it Invalid is a
submission whose request fails with HTTP status 400 or 404; and Invalid is
terminal for the page instance — the invalid-token view is rendered, no event
issues a request, and any sequence of further events leaves it Invalid. -/
theorem C5_tokenValidity_state_machine (tp : Bool) (st : ResetState) (e : ResetEvent)
    (events : List ResetEvent) :
    initResetState.tokenValid = none ∧
    (mountEffect tp initResetState).state.tokenValid = some tp ∧
    (st.tokenValid = some true → (resetPageStep st e).state.tokenValid = some false →
      ∃ status m er, e = ResetEvent.submit (ResetOutcome.httpError status m er) ∧
        (status = 400 ∨ status = 404)) ∧
    (st.tokenValid = some false →
      render st = ResetView.invalidToken ∧
      (resetPageStep st e).requested = false ∧
      (resetSteps st events).tokenValid = some false) := by
  refine ⟨rfl, ?_, ?_, ?_⟩
  · cases tp <;> rfl
  · intro hv hflip
    cases e with
    | change f v =>
      rw [resetPageStep_change_tokenValid st f v, hv] at hflip
      exact absurd hflip (by simp)
    | submit o =>
      by_cases hc : render st = ResetView.form ∧ submitDisabled st = false
      · have hstep : (resetPageStep st (ResetEvent.submit o)).state =
            (handleResetPassword st o).state := by
          simp [resetPageStep, hc]
        rw [hstep] at hflip
        rcases handleResetPassword_tokenValid st o with heq | ⟨_, status, m, er, rfl, hs⟩
        · rw [heq, hv] at hflip
          exact absurd hflip (by simp)
        · exact ⟨status, m, er, rfl, hs⟩
      · have hstep : resetPageStep st (ResetEvent.submit o) = ⟨st, false⟩ := by
          simp only [resetPageStep]
          rw [if_neg hc]
        rw [hstep] at hflip
        rw [hv] at hflip
        exact absurd hflip (by simp)
  · intro hinv
    refine ⟨by simp [render, hinv], ?_, resetSteps_invalid events st hinv⟩
    rw [resetPageStep_invalid st e hinv]

/-- Witness for C5: a 404-failed submission from a Valid state is recognised
as the flipping event, and from an Invalid state a submission issues no
request and a further event sequence stays Invalid. -/
theorem C5_tokenValidity_state_machine_witness :
    (∃ status m er,
      ResetEvent.submit (ResetOutcome.httpError 404 none none) =
        ResetEvent.submit (ResetOutcome.httpError status m er) ∧
        (status = 400 ∨ status = 404)) ∧
    (resetPageStep ⟨"Abcdefg1", "Abcdefg1", none, "", false, some false⟩
      (ResetEvent.submit (ResetOutcome.ok true none))).requested = false ∧
    (resetSteps ⟨"", "", some invalidLinkMsg, "", false, some false⟩
      [ResetEvent.submit ResetOutcome.networkError]).tokenValid = some false :=
  ⟨(C5_tokenValidity_state_machine true
      ⟨"Abcdefg1", "Abcdefg1", none, "", false, some true⟩
      (ResetEvent.submit (ResetOutcome.httpError 404 none none)) []).2.2.1 rfl (by decide),
   ((C5_tokenValidity_state_machine true
      ⟨"Abcdefg1", "Abcdefg1", none, "", false, some false⟩
      (ResetEvent.submit (ResetOutcome.ok true none)) []).2.2.2 rfl).2.1,
   ((C5_tokenValidity_state_machine true
      ⟨"", "", some invalidLinkMsg, "", false, some false⟩
      (ResetEvent.submit ResetOutcome.networkError)
      [ResetEvent.submit ResetOutcome.networkError]).2.2.2 rfl).2.2⟩

end ResumeAnalyser
